import Mathlib

/-!
Shallow embedding of `src/lib/sqlalchemy_sandbox.py`: a linear demo script
that declares one SQLAlchemy table (`students`), opens an in-memory SQLite
session, bulk-inserts two records, runs read queries, performs an
object-level and a set-based grade update, and deletes records.

The storage layer is modelled explicitly: the database state is the list of
persisted rows together with the next primary key; inserts and updates are
checked against the declared constraints (`CHECK grade BETWEEN 1 AND 12`,
`UNIQUE email`) exactly as SQLite enforces them at write time, and a failed
statement leaves the state unchanged (transaction rollback).
-/

namespace SqlalchemySandbox

/-- Timestamps (Python `datetime` values) are modelled as natural numbers. -/
abbrev Timestamp := Nat

/-- A persisted row of the `students` table (columns from lines 29-34 of the
source). `id` is the SQLite-assigned integer primary key. -/
structure StudentRow where
  id : Nat
  name : String
  email : String
  grade : Int
  birthday : Timestamp
  enrolled_date : Timestamp
deriving DecidableEq

/-- An in-memory `Student` object as constructed by the script before
persistence: `id` is unset (`none`) until the database assigns it and it is
written back, `enrolled_date` is unset unless supplied (the column default
applies at insert time). -/
structure StudentObj where
  id : Option Nat := none
  name : String
  email : String
  grade : Int
  birthday : Timestamp
  enrolled_date : Option Timestamp := none
deriving DecidableEq

/-- One entry of a declarative `__table_args__` tuple. An `index` entry is
how an `Index` becomes part of a declarative table definition: a
string-column `Index` attaches to the table only when listed here (or built
against bound columns); the source's `__table_args__` (lines 15-25) contains
no such entry. -/
inductive TableArg where
  | primaryKey (cols : List String) (cname : String)
  | unique (cols : List String) (cname : String)
  | check (sqltext : String) (cname : String)
  | index (iname : String) (cols : List String)
deriving DecidableEq

/-- A secondary index as SQLAlchemy represents it: a name and column list. -/
structure SAIndex where
  iname : String
  cols : List String
deriving DecidableEq

/-- The `__table_args__` tuple of `Student` (lines 15-25): primary key on
`id`, unique constraint on `email`, and the grade range check. -/
def student_table_args : List TableArg :=
  [ .primaryKey ["id"] "id_pk",
    .unique ["email"] "unique_email",
    .check "grade BETWEEN 1 AND 12" "grade_between_1_and_12" ]

/-- The value built by the bare expression `Index('index_name', 'name')` at
line 27 of the source. It is evaluated inside the class body and discarded:
it is not listed in `__table_args__` and its columns are plain strings, so
it is never associated with the `students` table. -/
def index_name_value : SAIndex := { iname := "index_name", cols := ["name"] }

/-- The indexes a declarative table definition actually carries: exactly the
`index` entries of its `__table_args__`. -/
def schemaIndexes (args : List TableArg) : List SAIndex :=
  args.filterMap fun a =>
    match a with
    | .index iname cols => some { iname := iname, cols := cols }
    | _ => none

/-- A created table schema: table name, declared args, attached indexes. -/
structure TableSchema where
  tablename : String
  args : List TableArg
  indexes : List SAIndex
deriving DecidableEq

/-- The schema `Base.metadata.create_all(engine)` creates for `students`
(line 44): the declared `__table_args__`, and the indexes attached through
them. The line-27 `Index` value never reaches the table, so it contributes
nothing here. -/
def students_schema : TableSchema :=
  { tablename := "students",
    args := student_table_args,
    indexes := schemaIndexes student_table_args }

/-- The in-memory SQLite database state: the persisted rows in storage
(rowid) order, plus the next integer primary key to assign. -/
structure DB where
  rows : List StudentRow
  nextId : Nat
deriving DecidableEq

/-- The freshly created, empty database (line 43-44). -/
def emptyDB : DB := { rows := [], nextId := 1 }

/-- The check constraint `grade BETWEEN 1 AND 12` (lines 22-24), evaluated
by SQLite on every inserted or updated row. -/
def gradeOk (g : Int) : Bool := decide (1 ≤ g) && decide (g ≤ 12)

/-- The unique constraint on `email` (lines 19-21): the candidate email must
differ from every persisted row's email. -/
def emailFree (rows : List StudentRow) (e : String) : Bool :=
  rows.all fun r => r.email != e

/-- The value stored by the `enrolled_date` column default (line 34). The
source writes `default=datetime.now()`, which calls `datetime.now()` once,
when the class body is evaluated: the stored default is the class-definition
time `tdef`, and the actual insertion time `now` is ignored. -/
def enrolledDefault (tdef : Nat) (now : Nat) : Timestamp := tdef

/-- Insert one `Student` object as an `INSERT` statement: SQLite checks the
grade range and email uniqueness constraints; on success the row is appended
with the next primary key, on violation the statement fails (`none`).
`tdef` is the class-definition time, `now` the wall-clock insertion time
(see `enrolledDefault`). -/
def insertRow (tdef now : Nat) (db : DB) (o : StudentObj) : Option DB :=
  if gradeOk o.grade && emailFree db.rows o.email then
    some { rows := db.rows ++
             [{ id := db.nextId, name := o.name, email := o.email,
                grade := o.grade, birthday := o.birthday,
                enrolled_date := o.enrolled_date.getD (enrolledDefault tdef now) }],
           nextId := db.nextId + 1 }
  else none

/-- Insert a list of objects in order; any constraint violation aborts the
whole batch (the surrounding transaction has not committed). -/
def bulkInsert (tdef now : Nat) (db : DB) : List StudentObj → Option DB
  | [] => some db
  | o :: os =>
    match insertRow tdef now db o with
    | some db2 => bulkInsert tdef now db2 os
    | none => none

/-- The `session.bulk_save_objects` call (line 80): persists the objects,
but unlike `session.add` it never refreshes the Python objects
(`return_defaults` is false by default), so the database-assigned primary
keys are not written back; the in-memory objects are returned exactly as
built. -/
def bulk_save_objects (tdef now : Nat) (db : DB) (objs : List StudentObj) :
    Option DB × List StudentObj :=
  (bulkInsert tdef now db objs, objs)

/-- The unordered query `session.query(Student)` (line 86): rows come back
in storage (rowid) order. -/
def queryAll (db : DB) : List StudentRow := db.rows

/-- The `COUNT` aggregate `session.query(func.count(Student.id))`
(line 122): every persisted row has a non-null id, so this is the number of
rows. -/
def student_count (db : DB) : Nat := (queryAll db).length

/-- Comparison key of `order_by(Student.name)` (lines 98-100). -/
def nameLe (a b : StudentRow) : Prop := a.name ≤ b.name

instance : DecidableRel nameLe := fun a b =>
  inferInstanceAs (Decidable (a.name ≤ b.name))

instance : IsTotal StudentRow nameLe := ⟨fun a b => le_total a.name b.name⟩

instance : IsTrans StudentRow nameLe := ⟨fun _ _ _ hab hbc => le_trans hab hbc⟩

/-- Comparison key of `order_by(desc(Student.grade))` (lines 106-108). -/
def gradeDesc (a b : StudentRow) : Prop := b.grade ≤ a.grade

instance : DecidableRel gradeDesc := fun a b =>
  inferInstanceAs (Decidable (b.grade ≤ a.grade))

instance : IsTotal StudentRow gradeDesc := ⟨fun a b => le_total b.grade a.grade⟩

instance : IsTrans StudentRow gradeDesc := ⟨fun _ _ _ hab hbc => le_trans hbc hab⟩

/-- The query of lines 98-100: all rows ordered ascending by name (a
deterministic stable sort models the single-run deterministic tie order),
projected to the name column. -/
def query_names_order_by_name (db : DB) : List String :=
  (List.insertionSort nameLe db.rows).map (·.name)

/-- The query of lines 106-108: all rows ordered descending by grade,
projected to (name, grade). -/
def query_by_grade_desc (db : DB) : List (String × Int) :=
  (List.insertionSort gradeDesc db.rows).map fun r => (r.name, r.grade)

/-- ASCII lower-casing of a character code, as SQLite's LIKE applies it. -/
def lowerCode (n : Nat) : Nat := if 65 ≤ n ∧ n ≤ 90 then n + 32 else n

/-- Character equality up to ASCII case. -/
def eqIgnoreCase (a b : Char) : Bool := lowerCode a.toNat == lowerCode b.toNat

/-- Case-insensitive prefix test on character lists. -/
def startsWithCI : List Char → List Char → Bool
  | [], _ => true
  | _ :: _, [] => false
  | a :: as, b :: bs => eqIgnoreCase a b && startsWithCI as bs

/-- Case-insensitive substring test: `pat` occurs inside the second list. -/
def containsCI (pat : List Char) : List Char → Bool
  | [] => startsWithCI pat []
  | c :: cs => startsWithCI pat (c :: cs) || containsCI pat cs

/-- The SQL `LIKE '%pat%'` operator of `Student.name.like('%Alan%')`
(line 128). SQLite's LIKE is case-insensitive over ASCII. -/
def likeContains (s pat : String) : Bool := containsCI pat.data s.data

/-- The filter of lines 128-129: `name LIKE '%Alan%' AND grade == 11`. -/
def alanGrade11 (r : StudentRow) : Bool :=
  likeContains r.name "Alan" && (r.grade == 11)

/-- Lines 128-132: the filtered query, projected to the printed names. -/
def filter_alan_names (db : DB) : List String :=
  (db.rows.filter alanGrade11).map (·.name)

/-- The grade increment `student.grade += 1` applied to one row. -/
def incGrade (r : StudentRow) : StudentRow := { r with grade := r.grade + 1 }

/-- The object-level update of lines 137-140: every fetched object's grade
is incremented in memory and the commit flushes one `UPDATE` per row. If
any updated row violates the grade check the flush raises and the
transaction rolls back, so the update is all-or-nothing. -/
def object_level_update (db : DB) : Option DB :=
  if db.rows.all fun r => gradeOk (r.grade + 1) then
    some { db with rows := db.rows.map incGrade }
  else none

/-- The set-based update `session.query(Student).update(...)` of lines
148-150: a single `UPDATE students SET grade = grade + 1`. SQLite checks
every updated row against the grade constraint; any violation aborts the
whole statement. -/
def set_based_update (db : DB) : Option DB :=
  if db.rows.all fun r => gradeOk (r.grade + 1) then
    some { db with rows := db.rows.map incGrade }
  else none

/-- `query.first()` (lines 166, 173, 186): the first matching row in
storage order, if any. -/
def query_first (p : StudentRow → Bool) (db : DB) : Option StudentRow :=
  db.rows.find? p

/-- `session.delete(obj)` (line 169): deletes the row whose primary key
equals the fetched object's. -/
def delete_object (db : DB) (o : StudentRow) : DB :=
  { db with rows := db.rows.filter fun r => r.id != o.id }

/-- Lines 161-170: fetch the first row matching the filter and delete it
through the session. (The source never reaches this step with an empty
match; with no match `session.delete(None)` would raise, leaving the state
unchanged.) -/
def delete_first_match (p : StudentRow → Bool) (db : DB) : DB :=
  match db.rows.find? p with
  | some o => delete_object db o
  | none => db

/-- The query-scoped bulk delete `query.delete()` (lines 180-184): removes
every row matching the filter. -/
def query_delete (p : StudentRow → Bool) (db : DB) : DB :=
  { db with rows := db.rows.filter fun r => !(p r) }

/-- The write operations the script performs against the store. -/
inductive Op where
  | insert (now : Nat) (objs : List StudentObj)
  | objUpdate
  | setUpdate
  | delFirst (p : StudentRow → Bool)
  | delQuery (p : StudentRow → Bool)

/-- Apply one operation. A failed statement raises in the script and the
transaction never commits, so the observable state is unchanged. -/
def applyOp (tdef : Nat) (db : DB) : Op → DB
  | .insert now objs => ((bulk_save_objects tdef now db objs).1).getD db
  | .objUpdate => (object_level_update db).getD db
  | .setUpdate => (set_based_update db).getD db
  | .delFirst p => delete_first_match p db
  | .delQuery p => query_delete p db

/-- The states the store can reach from the fresh database through the
script's operations. -/
inductive Reachable (tdef : Nat) : DB → Prop where
  | init : Reachable tdef emptyDB
  | step {db : DB} (op : Op) : Reachable tdef db → Reachable tdef (applyOp tdef db op)

/-- The grade range invariant declared by the check constraint. -/
def gradeInv (db : DB) : Prop := ∀ r ∈ db.rows, 1 ≤ r.grade ∧ r.grade ≤ 12

/-! The concrete demo data of the script (lines 51-77). Dates are encoded
as `yyyymmdd`. -/

/-- The first in-memory record (lines 51-60). -/
def albert_einstein : StudentObj :=
  { name := "Albert Einstein", email := "albert.einstein@zurich.edu",
    grade := 6, birthday := 18790314 }

/-- The second in-memory record (lines 68-77). -/
def alan_turing : StudentObj :=
  { name := "Alan Turing", email := "alan.turing@sherborne.edu",
    grade := 11, birthday := 19120623 }

/-- The store after the bulk save and commit of lines 80-81 (class
definition and insertion both at time 0). -/
def db_after_insert : DB :=
  (bulkInsert 0 0 emptyDB [albert_einstein, alan_turing]).getD emptyDB

/-- The store after the object-level update and commit of lines 137-140. -/
def db_after_obj_update : DB :=
  (object_level_update db_after_insert).getD db_after_insert

/-- The filter of lines 161-163 and 180-182: `name == "Albert Einstein"`. -/
def einstein_filter (r : StudentRow) : Bool := r.name == "Albert Einstein"

/-! Helper lemmas about the constraint checks. -/

theorem gradeOk_iff {g : Int} : gradeOk g = true ↔ 1 ≤ g ∧ g ≤ 12 := by
  simp [gradeOk]

theorem insertRow_inv {tdef now : Nat} {db db2 : DB} {o : StudentObj}
    (h : insertRow tdef now db o = some db2) (hinv : gradeInv db) : gradeInv db2 := by
  unfold insertRow at h
  by_cases hc : (gradeOk o.grade && emailFree db.rows o.email) = true
  · rw [if_pos hc] at h
    injection h with h2
    subst h2
    intro r hr
    rcases List.mem_append.mp hr with hold | hnew
    · exact hinv r hold
    · rw [List.mem_singleton.mp hnew]
      exact gradeOk_iff.mp ((Bool.and_eq_true _ _).mp hc).1
  · rw [if_neg hc] at h
    exact Option.noConfusion h

theorem bulkInsert_inv {tdef now : Nat} :
    ∀ {objs : List StudentObj} {db db2 : DB},
      bulkInsert tdef now db objs = some db2 → gradeInv db → gradeInv db2
  | [], db, db2, h, hinv => by
    unfold bulkInsert at h
    injection h with h2
    subst h2
    exact hinv
  | o :: os, db, db2, h, hinv => by
    unfold bulkInsert at h
    cases hi : insertRow tdef now db o with
    | some dbm =>
      rw [hi] at h
      exact bulkInsert_inv h (insertRow_inv hi hinv)
    | none =>
      rw [hi] at h
      exact Option.noConfusion h

theorem object_level_update_inv {db db2 : DB}
    (h : object_level_update db = some db2) : gradeInv db2 := by
  unfold object_level_update at h
  by_cases hc : (db.rows.all fun r => gradeOk (r.grade + 1)) = true
  · rw [if_pos hc] at h
    injection h with h2
    subst h2
    intro r hr
    rcases List.mem_map.mp hr with ⟨s, hs, rfl⟩
    show 1 ≤ s.grade + 1 ∧ s.grade + 1 ≤ 12
    exact gradeOk_iff.mp (List.all_eq_true.mp hc s hs)
  · rw [if_neg hc] at h
    exact Option.noConfusion h

theorem set_based_update_inv {db db2 : DB}
    (h : set_based_update db = some db2) : gradeInv db2 := by
  unfold set_based_update at h
  by_cases hc : (db.rows.all fun r => gradeOk (r.grade + 1)) = true
  · rw [if_pos hc] at h
    injection h with h2
    subst h2
    intro r hr
    rcases List.mem_map.mp hr with ⟨s, hs, rfl⟩
    show 1 ≤ s.grade + 1 ∧ s.grade + 1 ≤ 12
    exact gradeOk_iff.mp (List.all_eq_true.mp hc s hs)
  · rw [if_neg hc] at h
    exact Option.noConfusion h

theorem filter_rows_inv {db : DB} (hinv : gradeInv db) (q : StudentRow → Bool) :
    gradeInv { db with rows := db.rows.filter q } := by
  intro r hr
  exact hinv r (List.mem_filter.mp hr).1

theorem delete_first_match_inv {db : DB} (hinv : gradeInv db)
    (p : StudentRow → Bool) : gradeInv (delete_first_match p db) := by
  unfold delete_first_match
  cases db.rows.find? p with
  | some o => exact filter_rows_inv hinv _
  | none => exact hinv

theorem query_delete_inv {db : DB} (hinv : gradeInv db)
    (p : StudentRow → Bool) : gradeInv (query_delete p db) :=
  filter_rows_inv hinv _

/-- C3: every reachable state of the store satisfies the grade range
invariant: each persisted record's grade lies in [1, 12]. Every operation
of the script (bulk insert, object-level update with commit, set-based
update, both deletes) preserves it, violating writes being rejected by the
storage layer at write time (the failed statement leaves the state
unchanged). -/
theorem c3_grade_invariant {tdef : Nat} {db : DB} (h : Reachable tdef db) :
    gradeInv db := by
  induction h with
  | init =>
    intro r hr
    exact absurd hr (by simp [emptyDB])
  | step op hprev ih =>
    cases op with
    | insert now objs =>
      show gradeInv (((bulkInsert tdef now _ objs)).getD _)
      cases hb : bulkInsert tdef now _ objs with
      | some db2 => exact bulkInsert_inv hb ih
      | none => exact ih
    | objUpdate =>
      show gradeInv ((object_level_update _).getD _)
      cases hb : object_level_update _ with
      | some db2 => exact object_level_update_inv hb
      | none => exact ih
    | setUpdate =>
      show gradeInv ((set_based_update _).getD _)
      cases hb : set_based_update _ with
      | some db2 => exact set_based_update_inv hb
      | none => exact ih
    | delFirst p => exact delete_first_match_inv ih p
    | delQuery p => exact query_delete_inv ih p

/-- C3 witness: the state reached by bulk-inserting the two demo records
into the fresh store is reachable, and the theorem yields its grade
invariant. -/
theorem c3_grade_invariant_witness :
    gradeInv (applyOp 0 emptyDB (Op.insert 0 [albert_einstein, alan_turing])) :=
  c3_grade_invariant
    (Reachable.step (Op.insert 0 [albert_einstein, alan_turing]) Reachable.init)

/-- C4: inserting a record whose grade is 0 or 13 fails with a constraint
violation (the insert statement yields no new state), and the observable
store after the failed transaction is exactly the prior state. -/
theorem c4_out_of_range_insert_fails (tdef now : Nat) (db : DB)
    (o : StudentObj) (h : o.grade = 0 ∨ o.grade = 13) :
    insertRow tdef now db o = none ∧
      applyOp tdef db (Op.insert now [o]) = db := by
  have hg : gradeOk o.grade = false := by
    rcases h with h0 | h13
    · rw [h0]; decide
    · rw [h13]; decide
  have hins : insertRow tdef now db o = none := by
    unfold insertRow
    rw [hg]
    simp
  refine ⟨hins, ?_⟩
  show ((bulkInsert tdef now db [o])).getD db = db
  unfold bulkInsert
  rw [hins]
  rfl

/-- C4 witness: inserting a grade-13 variant of the Turing record into the
store holding the two demo rows fails and leaves the store unchanged. -/
theorem c4_out_of_range_insert_fails_witness :
    insertRow 0 0 db_after_insert { alan_turing with grade := 13, email := "t2@x.edu" } = none ∧
      applyOp 0 db_after_insert (Op.insert 0 [{ alan_turing with grade := 13, email := "t2@x.edu" }]) = db_after_insert :=
  c4_out_of_range_insert_fails 0 0 db_after_insert _ (Or.inr rfl)

/-- C5: for any state already containing a record with email `e`, inserting
another record with email `e` fails with a unique-constraint violation. -/
theorem c5_duplicate_email_fails (tdef now : Nat) (db : DB) (o : StudentObj)
    (r : StudentRow) (hr : r ∈ db.rows) (he : o.email = r.email) :
    insertRow tdef now db o = none := by
  have hfree : emailFree db.rows o.email = false := by
    unfold emailFree
    rw [List.all_eq_false]
    exact ⟨r, hr, by simp [he]⟩
  unfold insertRow
  rw [hfree]
  simp

/-- C5 witness: re-inserting a record with Einstein's email into the store
holding the two demo rows fails. -/
theorem c5_duplicate_email_fails_witness :
    insertRow 0 0 db_after_insert
      { name := "Imposter", email := "albert.einstein@zurich.edu",
        grade := 3, birthday := 1 } = none :=
  c5_duplicate_email_fails 0 0 db_after_insert _
    { id := 1, name := "Albert Einstein", email := "albert.einstein@zurich.edu",
      grade := 6, birthday := 18790314, enrolled_date := 0 }
    (by decide) rfl

/-- C1 counterexample: the spec's end-to-end trace cannot complete. After
the object-level update the grades are 7 and 12; the set-based update would
push Turing's grade to 13, violating the check constraint, so the statement
fails (and the script aborts with the raised error before any delete).
Consequently no state of the run holds a grade-13 record: the claimed
ending, Turing remaining with grade 13, is impossible. -/
theorem c1_counterexample :
    set_based_update db_after_obj_update = none ∧
      ∀ r ∈ (applyOp 0 db_after_obj_update Op.setUpdate).rows, r.grade ≠ 13 := by
  decide

/-- C1 amended: the trace holds up to the set-based update: the bulk insert
of the two demo records succeeds, the count aggregate returns 2, the
`name LIKE '%Alan%' AND grade = 11` filter yields exactly "Alan Turing",
and the object-level update leaves grades 7 and 12; the set-based update is
then rejected by the grade check constraint, aborting the script, so the
deletion steps never run and Turing's grade never reaches 13. -/
theorem c1_amended :
    (bulkInsert 0 0 emptyDB [albert_einstein, alan_turing]).isSome = true ∧
    student_count db_after_insert = 2 ∧
    filter_alan_names db_after_insert = ["Alan Turing"] ∧
    (object_level_update db_after_insert).map (fun d => d.rows.map fun r => (r.name, r.grade))
      = some [("Albert Einstein", 7), ("Alan Turing", 12)] ∧
    set_based_update ((object_level_update db_after_insert).getD db_after_insert) = none := by
  decide

/-- C2 counterexample: with the script's own persisted records (grades 6
and 11), the object-level update followed by the set-based update does not
leave each grade at original + 2: the set-based statement fails (Turing's
grade would become 13) and the observable final grades are 7 and 12, i.e.
original + 1. -/
theorem c2_counterexample :
    ¬ ((applyOp 0 (applyOp 0 db_after_insert Op.objUpdate) Op.setUpdate).rows.map (·.grade)
        = db_after_insert.rows.map fun r => r.grade + 2) := by
  decide

/-- C2 amended: provided every record persisted before the update phase has
grade in [1, 10] (so both increments stay within the check constraint), the
object-level update followed by the set-based update succeeds and leaves
each record's grade equal to its original grade plus 2. -/
theorem c2_two_updates_add_two (db : DB)
    (h : ∀ r ∈ db.rows, 1 ≤ r.grade ∧ r.grade ≤ 10) :
    ((object_level_update db).bind set_based_update).map (fun d => d.rows.map (·.grade))
      = some (db.rows.map fun r => r.grade + 2) := by
  have h1 : (db.rows.all fun r => gradeOk (r.grade + 1)) = true := by
    rw [List.all_eq_true]
    intro r hr
    exact gradeOk_iff.mpr ⟨by linarith [(h r hr).1], by linarith [(h r hr).2]⟩
  have h2 : ((db.rows.map incGrade).all fun r => gradeOk (r.grade + 1)) = true := by
    rw [List.all_eq_true]
    intro r hr
    rcases List.mem_map.mp hr with ⟨s, hs, rfl⟩
    show gradeOk (s.grade + 1 + 1) = true
    exact gradeOk_iff.mpr ⟨by linarith [(h s hs).1], by linarith [(h s hs).2]⟩
  have hobj : object_level_update db
      = some { db with rows := db.rows.map incGrade } := by
    unfold object_level_update
    rw [if_pos h1]
  have hset : set_based_update { db with rows := db.rows.map incGrade }
      = some { db with rows := (db.rows.map incGrade).map incGrade } := by
    unfold set_based_update
    rw [if_pos h2]
  rw [hobj]
  show (set_based_update { db with rows := db.rows.map incGrade }).map
      (fun d => d.rows.map (·.grade)) = some (db.rows.map fun r => r.grade + 2)
  rw [hset]
  show some (((db.rows.map incGrade).map incGrade).map (·.grade)) = _
  congr 1
  rw [List.map_map, List.map_map]
  apply List.map_congr_left
  intro r _
  show r.grade + 1 + 1 = r.grade + 2
  ring

/-- The store holding only Einstein's record, used to witness C2. -/
def db_einstein_only : DB := (bulkInsert 0 0 emptyDB [albert_einstein]).getD emptyDB

/-- C2 witness: on the store holding only Einstein's record (grade 6), the
two updates yield grade 8 = 6 + 2. -/
theorem c2_two_updates_add_two_witness :
    (∀ r ∈ db_einstein_only.rows, 1 ≤ r.grade ∧ r.grade ≤ 10) ∧
    ((object_level_update db_einstein_only).bind set_based_update).map
        (fun d => d.rows.map (·.grade))
      = some (db_einstein_only.rows.map fun r => r.grade + 2) :=
  ⟨by decide, c2_two_updates_add_two db_einstein_only (by decide)⟩

/-- C6 counterexample: records created at the distinct times 5 and 9 (the
class body having been evaluated at time 0) do not receive their respective
creation times as enrollment timestamps — both rows carry timestamp 0. -/
theorem c6_counterexample :
    ¬ ((((bulkInsert 0 9 ((bulkInsert 0 5 emptyDB [albert_einstein]).getD emptyDB)
          [alan_turing]).getD emptyDB).rows.map (·.enrolled_date)) = [5, 9]) := by
  decide

/-- C6 amended: the `enrolled_date` default is the single timestamp
captured when the class body evaluated `datetime.now()` (line 34): a record
inserted without an explicit enrollment timestamp receives the
class-definition time `tdef`, whatever its creation time `now`. -/
theorem c6_default_is_class_def_time (tdef now : Nat) (db db2 : DB)
    (o : StudentObj) (ho : o.enrolled_date = none)
    (h : insertRow tdef now db o = some db2) :
    ∀ r ∈ db2.rows, r ∈ db.rows ∨ r.enrolled_date = tdef := by
  unfold insertRow at h
  by_cases hc : (gradeOk o.grade && emailFree db.rows o.email) = true
  · rw [if_pos hc] at h
    injection h with h2
    subst h2
    intro r hr
    rcases List.mem_append.mp hr with hold | hnew
    · exact Or.inl hold
    · right
      rw [List.mem_singleton.mp hnew]
      rw [ho]
      rfl
  · rw [if_neg hc] at h
    exact Option.noConfusion h

/-- The store after inserting Einstein's record at time 5 with the class
defined at time 0, used to witness C6. -/
def c6_db : DB := (insertRow 0 5 emptyDB albert_einstein).getD emptyDB

/-- C6 witness: Einstein's object carries no explicit enrollment timestamp,
its insertion at time 5 succeeds, and the resulting row's enrollment
timestamp is the class-definition time 0. -/
theorem c6_default_is_class_def_time_witness :
    albert_einstein.enrolled_date = none ∧
    (∀ r ∈ c6_db.rows, r ∈ emptyDB.rows ∨ r.enrolled_date = 0) :=
  ⟨rfl, c6_default_is_class_def_time 0 5 emptyDB c6_db albert_einstein rfl (by decide)⟩

/-- C7 counterexample: the schema created for the students table contains
no index covering the name column — the `Index` built at line 27 is a bare
expression in the class body, absent from `__table_args__`, and is never
associated with the table. -/
theorem c7_counterexample :
    ¬ ∃ ix ∈ students_schema.indexes, "name" ∈ ix.cols := by
  decide

/-- C7 amended: the script builds an Index value named `index_name` over
the name column, but the created students schema carries exactly the three
declared table args (primary key, unique email, grade check) and no indexes
at all; the Index value is not part of the schema. -/
theorem c7_no_index_in_schema :
    index_name_value.cols = ["name"] ∧
    students_schema.indexes = [] ∧
    students_schema.args = student_table_args := by
  decide

/-- C10: the bulk-save call persists the two constructed objects — the
stored rows receive the database-assigned primary keys 1 and 2 — but the
bulk persistence path never writes anything back onto the Python objects:
their `id` stays `none` and they remain exactly as built. -/
theorem c10_bulk_save_no_writeback :
    ((bulk_save_objects 0 0 emptyDB [albert_einstein, alan_turing]).1.getD emptyDB).rows.map (·.id)
        = [1, 2] ∧
    (bulk_save_objects 0 0 emptyDB [albert_einstein, alan_turing]).2.map (·.id)
        = [none, none] ∧
    (bulk_save_objects 0 0 emptyDB [albert_einstein, alan_turing]).2
        = [albert_einstein, alan_turing] := by
  decide

/-- C8: each ordered query returns a sequence totally ordered by its
comparison key: the name projection of the name-ascending query is
non-decreasing lexicographically, and the grade components of the
grade-descending query are non-increasing. (Both queries are functions of
the state, so tie order within a run is deterministic.) -/
theorem c8_order_by_sorted (db : DB) :
    (query_names_order_by_name db).Sorted (· ≤ ·) ∧
    (query_by_grade_desc db).Sorted (fun a b => b.2 ≤ a.2) := by
  constructor
  · exact List.Pairwise.map _ (fun a b h => h)
      (List.sorted_insertionSort nameLe db.rows)
  · exact List.Pairwise.map _ (fun a b h => h)
      (List.sorted_insertionSort gradeDesc db.rows)

/-- If the first match of `p` is `o` and exactly one row matches `p`, then
removing the rows sharing `o`'s primary key leaves no match of `p`. -/
theorem find?_after_delete_eq_none {p : StudentRow → Bool} :
    ∀ {l : List StudentRow} {o : StudentRow},
      l.find? p = some o → l.countP p = 1 →
      (l.filter fun r => r.id != o.id).find? p = none
  | [], o, hf, _ => by
    simp [List.find?] at hf
  | r :: rs, o, hf, hc => by
    by_cases hp : p r = true
    · have ho : o = r := by
        rw [List.find?_cons_of_pos _ hp] at hf
        exact (Option.some.inj hf).symm
      subst ho
      rw [List.countP_cons_of_pos _ _ hp] at hc
      have hzero : rs.countP p = 0 := by omega
      rw [List.filter_cons_of_neg (by simp)]
      rw [List.find?_eq_none]
      intro x hx
      exact List.countP_eq_zero.mp hzero x (List.mem_filter.mp hx).1
    · have hf2 : rs.find? p = some o := by
        rw [List.find?_cons_of_neg _ hp] at hf
        exact hf
      have hc2 : rs.countP p = 1 := by
        rw [List.countP_cons_of_neg _ _ hp] at hc
        exact hc
      have ih := find?_after_delete_eq_none hf2 hc2
      by_cases hq : (r.id != o.id) = true
      · rw [List.filter_cons, if_pos hq, List.find?_cons_of_neg _ hp]
        exact ih
      · rw [List.filter_cons, if_neg hq]
        exact ih

/-- C9 counterexample: with two persisted records both named "Ada" and the
filter `name == "Ada"` matching both, deleting via the fetched first object
does not result in zero matches: a subsequent `first()` still returns a
record. -/
theorem c9_counterexample :
    query_first (fun r => r.name == "Ada")
        (delete_first_match (fun r => r.name == "Ada")
          ((bulkInsert 0 0 emptyDB
            [ { name := "Ada", email := "ada.one@x.edu", grade := 5, birthday := 1 },
              { name := "Ada", email := "ada.two@x.edu", grade := 7, birthday := 2 } ]).getD
            emptyDB))
      ≠ none := by
  decide

/-- C9 amended: the query-scoped bulk delete always leaves zero matches for
the filter (`first()` returns no result); deleting via the fetched first
object leaves zero matches provided the record was the filter's unique
match (with several matches only the first is removed). -/
theorem c9_delete_then_no_match (p : StudentRow → Bool) (db : DB) :
    query_first p (query_delete p db) = none ∧
      (db.rows.countP p = 1 → query_first p (delete_first_match p db) = none) := by
  constructor
  · unfold query_first query_delete
    rw [List.find?_eq_none]
    intro x hx
    have hnx := (List.mem_filter.mp hx).2
    simp only [Bool.not_eq_true'] at hnx
    simp [hnx]
  · intro hcount
    unfold query_first delete_first_match
    cases hf : db.rows.find? p with
    | some o =>
      show (db.rows.filter fun r => r.id != o.id).find? p = none
      exact find?_after_delete_eq_none hf hcount
    | none =>
      rw [List.find?_eq_none] at hf
      rw [List.countP_eq_zero.mpr hf] at hcount
      exact absurd hcount (by omega)

/-- C9 witness: on the store holding the two demo records, the Einstein
filter matches exactly one row, and both deletion paths leave `first()`
with no result. -/
theorem c9_delete_then_no_match_witness :
    query_first einstein_filter (query_delete einstein_filter db_after_insert) = none ∧
    query_first einstein_filter (delete_first_match einstein_filter db_after_insert) = none :=
  ⟨(c9_delete_then_no_match einstein_filter db_after_insert).1,
   (c9_delete_then_no_match einstein_filter db_after_insert).2 (by decide)⟩

end SqlalchemySandbox
